import Mathlib

/-!
Verification of the packetry USB capture decoder (`src/capture.rs`).

The Rust source is shallowly embedded: the append-only storage containers
(`FileVec`, `HybridIndex`) are modelled as Lean lists holding their logical
content, machine integers as `Nat` with explicit `% 2^w` where the source
truncates, and every fallible operation (out-of-bounds indexing, i.e. a Rust
panic) as `Option`.
-/

set_option maxHeartbeats 1000000

/-- USB packet identifiers, one byte each; any other byte is `Malformed`.
Mirrors `enum PID` in the source. -/
inductive PID where
  | RSVD
  | OUT
  | ACK
  | DATA0
  | PING
  | SOF
  | NYET
  | DATA2
  | SPLIT
  | IN
  | NAK
  | DATA1
  | ERR
  | SETUP
  | STALL
  | MDATA
  | Malformed
deriving DecidableEq, BEq, Repr, Fintype

/-- `PID::from(u8)` with `#[default] Malformed` (num_enum `FromPrimitive`). -/
def PID.ofByte (b : Nat) : PID :=
  if b = 0xF0 then .RSVD
  else if b = 0xE1 then .OUT
  else if b = 0xD2 then .ACK
  else if b = 0xC3 then .DATA0
  else if b = 0xB4 then .PING
  else if b = 0xA5 then .SOF
  else if b = 0x96 then .NYET
  else if b = 0x87 then .DATA2
  else if b = 0x78 then .SPLIT
  else if b = 0x69 then .IN
  else if b = 0x5A then .NAK
  else if b = 0x4B then .DATA1
  else if b = 0x3C then .ERR
  else if b = 0x2D then .SETUP
  else if b = 0x1E then .STALL
  else if b = 0x0F then .MDATA
  else .Malformed

/-- The `Display`/`Debug` rendering of a PID used by the summarizer. -/
def PID.toDisplay : PID → String
  | .RSVD => "RSVD"
  | .OUT => "OUT"
  | .ACK => "ACK"
  | .DATA0 => "DATA0"
  | .PING => "PING"
  | .SOF => "SOF"
  | .NYET => "NYET"
  | .DATA2 => "DATA2"
  | .SPLIT => "SPLIT"
  | .IN => "IN"
  | .NAK => "NAK"
  | .DATA1 => "DATA1"
  | .ERR => "ERR"
  | .SETUP => "SETUP"
  | .STALL => "STALL"
  | .MDATA => "MDATA"
  | .Malformed => "Malformed"

/-- Decode status shared by the transaction and transfer state machines. -/
inductive DecodeStatus where
  | NEW
  | CONTINUE
  | DONE
  | INVALID
deriving DecidableEq, BEq, Repr, Fintype

/-- Hierarchical view item: transfer-entry id, global transaction id, global
packet id. Mirrors `enum Item`. -/
inductive Item where
  | Transfer (u : Nat)
  | Transaction (u v : Nat)
  | Packet (u v w : Nat)
deriving DecidableEq, Repr

/-- `u16::from_le_bytes([a, b])` on byte values. -/
def u16le (a b : Nat) : Nat := a % 256 + (b % 256) * 256

/-- `SOFFields.frame_number`: bits 0..11 of the little-endian u16. -/
def sof_frame_number (v : Nat) : Nat := v % 2048

/-- `SOFFields.crc`: bits 11..16. -/
def sof_crc (v : Nat) : Nat := v / 2048 % 32

/-- `TokenFields.device_address`: bits 0..7. -/
def token_device_address (v : Nat) : Nat := v % 128

/-- `TokenFields.endpoint_number`: bits 7..11. -/
def token_endpoint_number (v : Nat) : Nat := v / 128 % 16

/-- `TokenFields.crc`: bits 11..16. -/
def token_crc (v : Nat) : Nat := v / 2048 % 32

/-- Per-layout decode of a packet's fields.  Mirrors `enum PacketFields`;
the `SOF`/`Token` payloads carry the raw little-endian u16. -/
inductive PacketFields where
  | SOF (v : Nat)
  | Token (v : Nat)
  | Data (crc : Nat)
  | None
deriving DecidableEq, Repr

/-- `PacketFields::from_packet`.  Reads `packet[1]`/`packet[2]` for SOF and
token layouts and `packet[end-2..end]` for data layouts; an out-of-bounds
read (a Rust panic) yields `none`. -/
def PacketFields.from_packet (packet : List Nat) : Option PacketFields := do
  let b0 ← packet.head?
  match PID.ofByte b0 with
  | .SOF => do
      let b1 ← packet.get? 1
      let b2 ← packet.get? 2
      pure (.SOF (u16le b1 b2))
  | .SETUP | .IN | .OUT => do
      let b1 ← packet.get? 1
      let b2 ← packet.get? 2
      pure (.Token (u16le b1 b2))
  | .DATA0 | .DATA1 =>
      if packet.length < 2 then none
      else do
        let a ← packet.get? (packet.length - 2)
        let b ← packet.get? (packet.length - 1)
        pure (.Data (u16le a b))
  | _ => pure .None

/-- `enum RequestType` (bits 5..7 of the request-type byte). -/
inductive RequestType where
  | Standard
  | Class
  | Vendor
  | Reserved
deriving DecidableEq, Repr

def RequestType.fromPrimitive (n : Nat) : RequestType :=
  if n = 0 then .Standard else if n = 1 then .Class else if n = 2 then .Vendor
  else .Reserved

def RequestType.toDisplay : RequestType → String
  | .Standard => "Standard"
  | .Class => "Class"
  | .Vendor => "Vendor"
  | .Reserved => "Reserved"

/-- `enum Recipient` (bits 0..5 of the request-type byte). -/
inductive Recipient where
  | Device
  | Interface
  | Endpoint
  | Other
  | Reserved
deriving DecidableEq, Repr

def Recipient.fromPrimitive (n : Nat) : Recipient :=
  if n = 0 then .Device else if n = 1 then .Interface
  else if n = 2 then .Endpoint else if n = 3 then .Other else .Reserved

/-- `enum Direction` (bit 7 of the request-type byte). -/
inductive Direction where
  | Out
  | In
deriving DecidableEq, Repr

def Direction.fromPrimitive (n : Nat) : Direction := if n = 1 then .In else .Out

/-- `RequestTypeFields::recipient`: bits 0..5. -/
def rtf_recipient (b : Nat) : Recipient := Recipient.fromPrimitive (b % 32)

/-- `RequestTypeFields::request_type`: bits 5..7. -/
def rtf_request_type (b : Nat) : RequestType := RequestType.fromPrimitive (b / 32 % 4)

/-- `RequestTypeFields::direction`: bit 7. -/
def rtf_direction (b : Nat) : Direction := Direction.fromPrimitive (b / 128 % 2)

/-- `struct SetupFields`, parsed from bytes 1..9 of a setup data packet. -/
structure SetupFields where
  type_fields : Nat
  request : Nat
  value : Nat
  index : Nat
  length : Nat
deriving DecidableEq, Repr

/-- `SetupFields::from_data_packet`; reads `packet[1..9]`, so a packet
shorter than 9 bytes panics (`none`). -/
def SetupFields.from_data_packet (packet : List Nat) : Option SetupFields := do
  let b1 ← packet.get? 1
  let b2 ← packet.get? 2
  let b3 ← packet.get? 3
  let b4 ← packet.get? 4
  let b5 ← packet.get? 5
  let b6 ← packet.get? 6
  let b7 ← packet.get? 7
  let b8 ← packet.get? 8
  pure { type_fields := b1, request := b2, value := u16le b3 b4,
         index := u16le b5 b6, length := u16le b7 b8 }

/-- `enum StandardRequest` with `#[default] Unknown`. -/
inductive StandardRequest where
  | GetStatus
  | ClearFeature
  | SetFeature
  | SetAddress
  | GetDescriptor
  | SetDescriptor
  | GetConfiguration
  | SetConfiguration
  | GetInterface
  | SetInterface
  | SynchFrame
  | Unknown
deriving DecidableEq, Repr

def StandardRequest.fromPrimitive (n : Nat) : StandardRequest :=
  if n = 0 then .GetStatus
  else if n = 1 then .ClearFeature
  else if n = 3 then .SetFeature
  else if n = 5 then .SetAddress
  else if n = 6 then .GetDescriptor
  else if n = 7 then .SetDescriptor
  else if n = 8 then .GetConfiguration
  else if n = 9 then .SetConfiguration
  else if n = 10 then .GetInterface
  else if n = 11 then .SetInterface
  else if n = 12 then .SynchFrame
  else .Unknown

/-- `enum DescriptorType` with `#[default] Unknown`. -/
inductive DescriptorType where
  | Device
  | Configuration
  | String
  | Interface
  | Endpoint
  | DeviceQualifier
  | OtherSpeedConfiguration
  | InterfacePower
  | Unknown
deriving DecidableEq, Repr

def DescriptorType.fromPrimitive (n : Nat) : DescriptorType :=
  if n = 1 then .Device
  else if n = 2 then .Configuration
  else if n = 3 then .String
  else if n = 4 then .Interface
  else if n = 5 then .Endpoint
  else if n = 6 then .DeviceQualifier
  else if n = 7 then .OtherSpeedConfiguration
  else if n = 8 then .InterfacePower
  else .Unknown

def descriptor_type_description : DescriptorType → String
  | .Device => "device"
  | .Configuration => "configuration"
  | .String => "string"
  | .Interface => "interface"
  | .Endpoint => "endpoint"
  | .DeviceQualifier => "device qualifier"
  | .OtherSpeedConfiguration => "other speed configuration"
  | .InterfacePower => "interface power"
  | .Unknown => "unknown"

/-- `DescriptorType::description`. -/
def DescriptorType.description (d : DescriptorType) := descriptor_type_description d

/-- `enum StandardFeature` with `#[default] Unknown`. -/
inductive StandardFeature where
  | EndpointHalt
  | DeviceRemoteWakeup
  | TestMode
  | Unknown
deriving DecidableEq, Repr

def StandardFeature.fromPrimitive (n : Nat) : StandardFeature :=
  if n = 0 then .EndpointHalt
  else if n = 1 then .DeviceRemoteWakeup
  else if n = 2 then .TestMode
  else .Unknown

def StandardFeature.description : StandardFeature → String
  | .EndpointHalt => "endpoint halt"
  | .DeviceRemoteWakeup => "device remote wakeup"
  | .TestMode => "test mode"
  | .Unknown => "unknown standard feature"

/-- `struct Endpoint`: two bytes `{device_address, endpoint_number}`. -/
structure Endpoint where
  device_address : Nat
  endpoint_number : Nat
deriving DecidableEq, Repr

/-- The packed 64-bit `TransferIndexEntry`, modelled by its three fields;
the setters truncate `transfer_id` to 52 bits and `endpoint_id` to 11 bits
exactly as the bitfield does. -/
structure TransferIndexEntry where
  transfer_id : Nat
  endpoint_id : Nat
  is_start : Bool
deriving DecidableEq, Repr

/-- `struct TransactionState`. -/
structure TransactionState where
  first : PID
  last : PID
  start : Nat
  count : Nat
  endpoint_id : Nat
deriving DecidableEq, Repr

/-- `enum EndpointState` (byte values Idle=0, Starting=1, Ongoing=2,
Ending=3). -/
inductive EndpointState where
  | Idle
  | Starting
  | Ongoing
  | Ending
deriving DecidableEq, BEq, Repr

def EndpointState.ofByte (b : Nat) : EndpointState :=
  if b = 1 then .Starting else if b = 2 then .Ongoing
  else if b = 3 then .Ending else .Idle

def EndpointState.toByte : EndpointState → Nat
  | .Idle => 0
  | .Starting => 1
  | .Ongoing => 2
  | .Ending => 3

/-- `enum EndpointType`: 0 = Control, 0xFE = Framing, 0xFF = Invalid,
anything else = Normal (the `#[default]`). -/
inductive EndpointType where
  | Control
  | Normal
  | Framing
  | Invalid
deriving DecidableEq, Repr, Fintype

def EndpointType.fromPrimitive (n : Nat) : EndpointType :=
  if n = 0 then .Control
  else if n = 0xFE then .Framing
  else if n = 0xFF then .Invalid
  else .Normal

/-- `struct EndpointData`: per-endpoint decoder state. -/
structure EndpointData where
  ep_type : EndpointType
  transaction_ids : List Nat
  transfer_index : List Nat
  transaction_start : Nat
  transaction_count : Nat
  last : PID
deriving DecidableEq, Repr

instance : Inhabited EndpointData :=
  ⟨{ ep_type := .Invalid, transaction_ids := [], transfer_index := [],
     transaction_start := 0, transaction_count := 0, last := .Malformed }⟩

/-- `EndpointData::status`: the transfer state machine's transition table,
keyed by endpoint type, last successful transaction PID and next PID. -/
def endpointStatus : EndpointType → PID → PID → DecodeStatus
  | .Control, _, .SETUP => .NEW
  | .Control, .SETUP, .IN | .Control, .SETUP, .OUT => .CONTINUE
  | .Control, .IN, .IN => .CONTINUE
  | .Control, .OUT, .OUT => .CONTINUE
  | .Control, .IN, .OUT => .DONE
  | .Control, .OUT, .IN => .DONE
  | .Normal, .Malformed, .IN | .Normal, .Malformed, .OUT => .NEW
  | .Normal, .IN, .IN => .CONTINUE
  | .Normal, .OUT, .OUT => .CONTINUE
  | .Framing, .Malformed, .SOF => .NEW
  | .Framing, .SOF, .SOF => .CONTINUE
  | _, _, _ => .INVALID

def EndpointData.status (d : EndpointData) (next : PID) : DecodeStatus :=
  endpointStatus d.ep_type d.last next

/-- `TransactionState::status`: the transaction state machine's transition
table, keyed by (first, last, next) PID. -/
def transactionStatus : PID → PID → PID → DecodeStatus
  | _, _, .SETUP | _, _, .IN | _, _, .OUT => .NEW
  | _, .Malformed, .SOF => .NEW
  | _, .SOF, .SOF => .CONTINUE
  | _, .SETUP, .DATA0 => .CONTINUE
  | .SETUP, .DATA0, .ACK => .DONE
  | _, .IN, .NAK | _, .IN, .STALL => .DONE
  | _, .IN, .DATA0 | _, .IN, .DATA1 | _, .OUT, .DATA0 | _, .OUT, .DATA1 =>
      .CONTINUE
  | .IN, .DATA0, .ACK | .IN, .DATA1, .ACK
  | .OUT, .DATA0, .ACK | .OUT, .DATA1, .ACK => .DONE
  | .OUT, .DATA0, .NAK | .OUT, .DATA0, .STALL
  | .OUT, .DATA1, .NAK | .OUT, .DATA1, .STALL => .DONE
  | _, _, _ => .INVALID

def TransactionState.status (st : TransactionState) (next : PID) : DecodeStatus :=
  transactionStatus st.first st.last next

/-- `struct Capture`: the whole decoder state.  `FileVec`/`HybridIndex`
contents are lists; the `[[i16; 16]; 128]` lookup table is a total function
with the `-1` sentinel. -/
structure Capture where
  item_index : List Nat
  packet_index : List Nat
  packet_data : List Nat
  transaction_index : List Nat
  transfer_index : List TransferIndexEntry
  endpoint_index : Nat → Nat → Int
  endpoints : List Endpoint
  endpoint_data : List EndpointData
  endpoint_states : List Nat
  endpoint_state_index : List Nat
  last_endpoint_state : List Nat
  last_item_endpoint : Int
  transaction_state : TransactionState

/-- `EndpointState` transition applied on every transfer-entry append
(`Capture::add_endpoint_state`'s inner match). -/
def endpointStateTransition (same start : Bool) (last : EndpointState) :
    EndpointState :=
  match same, start, last with
  | true, true, _ => .Starting
  | true, false, _ => .Ending
  | false, _, .Starting | false, _, .Ongoing => .Ongoing
  | false, _, .Ending | false, _, .Idle => .Idle

/-- Map over a list with the element index, used to model the in-place
update loop of `add_endpoint_state`. -/
def mapWithIndex (f : Nat → Nat → Nat) : Nat → List Nat → List Nat
  | _, [] => []
  | i, a :: as => f i a :: mapWithIndex f (i + 1) as

/-- `Capture::add_endpoint` (infallible). -/
def Capture.add_endpoint (s : Capture) (addr num : Nat) : Capture :=
  { s with
    endpoint_data := s.endpoint_data ++
      [{ ep_type := EndpointType.fromPrimitive (num % 256), transaction_ids := [],
         transfer_index := [], transaction_start := 0, transaction_count := 0,
         last := PID.Malformed }],
    endpoints := s.endpoints ++ [{ device_address := addr % 256,
                                   endpoint_number := num % 256 }],
    last_endpoint_state := s.last_endpoint_state ++ [EndpointState.toByte .Idle] }

/-- `Capture::new()`: empty storage, the 128×16 lookup table all `-1`, and
the two pre-registered endpoints (id 0 = Invalid, id 1 = Framing). -/
def Capture.new : Capture :=
  Capture.add_endpoint
    (Capture.add_endpoint
      { item_index := [], packet_index := [], packet_data := [],
        transaction_index := [], transfer_index := [],
        endpoint_index := fun _ _ => -1, endpoints := [], endpoint_data := [],
        endpoint_states := [], endpoint_state_index := [],
        last_endpoint_state := [], last_item_endpoint := -1,
        transaction_state := { first := .Malformed, last := .Malformed,
                               start := 0, count := 0, endpoint_id := 0 } }
      0 0xFF)
    0 0xFE

/-- The state-vector update of `Capture::add_endpoint_state`: each of the
first `endpoint_count` bytes steps by `endpointStateTransition`. -/
def nextEndpointStates (s : Capture) (endpoint_id : Nat) (start : Bool) :
    List Nat :=
  mapWithIndex
    (fun i b =>
      if i < s.endpoints.length then
        (endpointStateTransition (endpoint_id == i) start
          (EndpointState.ofByte b)).toByte
      else b)
    0 s.last_endpoint_state

/-- `Capture::add_endpoint_state`: update the rolling state vector, append
the snapshot to `endpoint_states` and its old length to
`endpoint_state_index`.  The update loop indexes `last_endpoint_state[i]`
for `i < endpoints.len()`, so it panics if the vector is shorter. -/
def Capture.add_endpoint_state (s : Capture) (endpoint_id : Nat)
    (start : Bool) : Option Capture :=
  if s.endpoints.length ≤ s.last_endpoint_state.length then
    let les := nextEndpointStates s endpoint_id start
    some { s with last_endpoint_state := les,
                  endpoint_states := s.endpoint_states ++ les,
                  endpoint_state_index :=
                    s.endpoint_state_index ++ [s.endpoint_states.length] }
  else none

/-- `Capture::add_transfer_entry`: build the packed entry (52-bit
`transfer_id`, 11-bit `endpoint_id`), append it to the global
`transfer_index`, then snapshot the endpoint states. -/
def Capture.add_transfer_entry (s : Capture) (endpoint_id : Nat)
    (start : Bool) : Option Capture := do
  let ep_data ← s.endpoint_data.get? endpoint_id
  let entry : TransferIndexEntry :=
    { transfer_id := ep_data.transfer_index.length % 2 ^ 52,
      endpoint_id := endpoint_id % 2 ^ 11, is_start := start }
  Capture.add_endpoint_state
    { s with transfer_index := s.transfer_index ++ [entry] }
    endpoint_id start

/-- `Capture::transfer_start`. -/
def Capture.transfer_start (s : Capture) : Option Capture := do
  let s := { s with item_index := s.item_index ++ [s.transfer_index.length] }
  let endpoint_id := s.transaction_state.endpoint_id
  let s := { s with last_item_endpoint := Int.ofNat endpoint_id }
  let s ← s.add_transfer_entry endpoint_id true
  let ep_data ← s.endpoint_data.get? endpoint_id
  let tstart := ep_data.transaction_ids.length
  let d := { ep_data with transaction_start := tstart, transaction_count := 0,
                          transfer_index := ep_data.transfer_index ++ [tstart] }
  pure { s with endpoint_data := s.endpoint_data.set endpoint_id d }

/-- `Capture::transfer_append`. -/
def Capture.transfer_append (s : Capture) (success : Bool) : Option Capture := do
  let endpoint_id := s.transaction_state.endpoint_id
  let ep_data ← s.endpoint_data.get? endpoint_id
  let d := { ep_data with
    transaction_ids := ep_data.transaction_ids ++ [s.transaction_index.length],
    transaction_count := ep_data.transaction_count + 1,
    last := if success then s.transaction_state.first else ep_data.last }
  pure { s with endpoint_data := s.endpoint_data.set endpoint_id d }

/-- `Capture::transfer_end`. -/
def Capture.transfer_end (s : Capture) : Option Capture := do
  let endpoint_id := s.transaction_state.endpoint_id
  let ep_data ← s.endpoint_data.get? endpoint_id
  let s ←
    if 0 < ep_data.transaction_count then
      let s :=
        if s.last_item_endpoint ≠ Int.ofNat endpoint_id then
          { s with item_index := s.item_index ++ [s.transfer_index.length],
                   last_item_endpoint := Int.ofNat endpoint_id }
        else s
      s.add_transfer_entry endpoint_id false
    else pure s
  let ep_data2 ← s.endpoint_data.get? endpoint_id
  let d := { ep_data2 with transaction_count := 0, last := PID.Malformed }
  pure { s with endpoint_data := s.endpoint_data.set endpoint_id d }

/-- `Capture::transfer_update`: retry guard, then the four-way branch on
the endpoint status. -/
def Capture.transfer_update (s : Capture) : Option Capture := do
  let endpoint_id := s.transaction_state.endpoint_id
  let ep_data ← s.endpoint_data.get? endpoint_id
  let status := ep_data.status s.transaction_state.first
  if 0 < ep_data.transaction_count ∧ status ≠ DecodeStatus.INVALID ∧
     ¬(s.transaction_state.count = 3 ∧ s.transaction_state.last = PID.ACK) then
    s.transfer_append false
  else
    match status with
    | .NEW => do
        let s ← s.transfer_end
        let s ← s.transfer_start
        s.transfer_append true
    | .CONTINUE => s.transfer_append true
    | .DONE => do
        let s ← s.transfer_append true
        s.transfer_end
    | .INVALID => do
        let s ← s.transfer_end
        let s ← s.transfer_start
        let s ← s.transfer_append false
        s.transfer_end

/-- `Capture::add_transaction`. -/
def Capture.add_transaction (s : Capture) : Option Capture :=
  if s.transaction_state.count = 0 then pure s
  else do
    let s ← s.transfer_update
    pure { s with transaction_index :=
                    s.transaction_index ++ [s.transaction_state.start] }

/-- `Capture::transaction_end`. -/
def Capture.transaction_end (s : Capture) : Option Capture := do
  let s ← s.add_transaction
  pure { s with transaction_state :=
    { s.transaction_state with count := 0, first := .Malformed,
                               last := .Malformed } }

/-- `Capture::transaction_append`. -/
def Capture.transaction_append (s : Capture) (pid : PID) : Capture :=
  { s with transaction_state :=
    { s.transaction_state with count := s.transaction_state.count + 1,
                               last := pid } }

/-- `Capture::transaction_start`: record the new transaction's start and
PIDs, then resolve the endpoint id from the packet fields (allocating a
new endpoint for an unseen token address pair). -/
def Capture.transaction_start (s : Capture) (packet : List Nat) :
    Option Capture := do
  let b0 ← packet.head?
  let s := { s with transaction_state :=
    { s.transaction_state with start := s.packet_index.length, count := 1,
                               first := PID.ofByte b0, last := PID.ofByte b0 } }
  let fields ← PacketFields.from_packet packet
  match fields with
  | .SOF _ =>
      pure { s with transaction_state :=
        { s.transaction_state with endpoint_id := 1 } }
  | .Token v =>
      let addr := token_device_address v
      let num := token_endpoint_number v
      if s.endpoint_index addr num < (0 : Int) then
        let endpoint_id : Int := Int.ofNat s.endpoints.length
        let s := { s with endpoint_index := fun a n =>
                     if a = addr ∧ n = num then endpoint_id
                     else s.endpoint_index a n }
        let s := s.add_endpoint addr num
        pure { s with transaction_state :=
          { s.transaction_state with
            endpoint_id := (s.endpoint_index addr num).toNat } }
      else
        pure { s with transaction_state :=
          { s.transaction_state with
            endpoint_id := (s.endpoint_index addr num).toNat } }
  | _ =>
      pure { s with transaction_state :=
        { s.transaction_state with endpoint_id := 0 } }

/-- `Capture::transaction_update`. -/
def Capture.transaction_update (s : Capture) (packet : List Nat) :
    Option Capture := do
  let b0 ← packet.head?
  let pid := PID.ofByte b0
  match s.transaction_state.status pid with
  | .NEW => do
      let s ← s.transaction_end
      s.transaction_start packet
  | .CONTINUE => pure (s.transaction_append pid)
  | .DONE => (s.transaction_append pid).transaction_end
  | .INVALID => do
      let s ← s.transaction_end
      let s ← s.transaction_start packet
      s.transaction_end

/-- `Capture::handle_raw_packet`: run the transaction machine, then store
the packet bytes and their start offset. -/
def Capture.handle_raw_packet (s : Capture) (packet : List Nat) :
    Option Capture := do
  let s ← s.transaction_update packet
  pure { s with packet_index := s.packet_index ++ [s.packet_data.length],
                packet_data := s.packet_data ++ packet }

/-- Ingest a list of packets in order into a fresh capture. -/
def runPackets (ps : List (List Nat)) : Option Capture :=
  ps.foldlM Capture.handle_raw_packet Capture.new

/-- A capture state is reachable if some packet sequence produces it. -/
def Reachable (s : Capture) : Prop := ∃ ps, runPackets ps = some s

/-- Decimal digit to character. -/
def digitChar (n : Nat) : Char :=
  if n = 0 then '0' else if n = 1 then '1' else if n = 2 then '2'
  else if n = 3 then '3' else if n = 4 then '4' else if n = 5 then '5'
  else if n = 6 then '6' else if n = 7 then '7' else if n = 8 then '8'
  else if n = 9 then '9' else '*'

/-- Decimal digits of `n`, most significant first (`fuel ≥ #digits`). -/
def natDigits : Nat → Nat → List Char
  | 0, _ => []
  | f + 1, n =>
      if n < 10 then [digitChar n]
      else natDigits f (n / 10) ++ [digitChar (n % 10)]

/-- Rust `format!("{}", n)` for an unsigned integer. -/
def natDec (n : Nat) : String := String.mk (natDigits (n + 1) n)

/-- Uppercase hexadecimal digit. -/
def hexChar (n : Nat) : Char :=
  if n < 10 then digitChar n
  else if n = 10 then 'A' else if n = 11 then 'B' else if n = 12 then 'C'
  else if n = 13 then 'D' else if n = 14 then 'E' else 'F'

/-- Lowercase hexadecimal digit. -/
def hexCharL (n : Nat) : Char :=
  if n < 10 then digitChar n
  else if n = 10 then 'a' else if n = 11 then 'b' else if n = 12 then 'c'
  else if n = 13 then 'd' else if n = 14 then 'e' else 'f'

/-- Rust `format!("{:02X}", b)` for a byte value. -/
def hex2U (n : Nat) : String := String.mk [hexChar (n / 16 % 16), hexChar (n % 16)]

/-- Rust `format!("{:04X}", v)` for a u16 value. -/
def hex4U (n : Nat) : String :=
  String.mk [hexChar (n / 4096 % 16), hexChar (n / 256 % 16),
             hexChar (n / 16 % 16), hexChar (n % 16)]

/-- Rust `format!("{:04x}", v)` for a u16 value. -/
def hex4L (n : Nat) : String :=
  String.mk [hexCharL (n / 4096 % 16), hexCharL (n / 256 % 16),
             hexCharL (n / 16 % 16), hexCharL (n % 16)]

/-- Rust `format!("{:02X?}", bytes)` on a byte vector. -/
def bytesDebug (bs : List Nat) : String :=
  "[" ++ String.intercalate ", " (bs.map hex2U) ++ "]"

/-- `StandardRequest::description`. -/
def StandardRequest.description (r : StandardRequest) (fields : SetupFields) :
    String :=
  match r with
  | .GetStatus => "Getting status"
  | .ClearFeature =>
      "Clearing " ++ (StandardFeature.fromPrimitive fields.value).description
  | .SetFeature =>
      "Setting " ++ (StandardFeature.fromPrimitive fields.value).description
  | .SetAddress => "Setting address to " ++ natDec fields.value
  | .GetDescriptor =>
      let dt := DescriptorType.fromPrimitive (fields.value / 256)
      "Getting " ++ dt.description ++ " descriptor #" ++
        natDec (fields.value % 256) ++
        (if dt = .String ∧ 0 < fields.index
         then ", language 0x" ++ hex4L fields.index else "")
  | .SetDescriptor =>
      let dt := DescriptorType.fromPrimitive (fields.value / 256)
      "Setting " ++ dt.description ++ " descriptor #" ++
        natDec (fields.value % 256) ++
        (if dt = .String ∧ 0 < fields.index
         then ", language 0x" ++ hex4L fields.index else "")
  | .GetConfiguration => "Getting configuration"
  | .SetConfiguration => "Setting configuration " ++ natDec fields.value
  | .GetInterface => "Getting interface " ++ natDec fields.index
  | .SetInterface =>
      "Setting interface " ++ natDec fields.index ++ " to " ++ natDec fields.value
  | .SynchFrame => "Synchronising frame"
  | .Unknown => "Unknown standard request"

/-- `get_index_range`: read `index[id]` and either `index[id+1]` or the
collection's total length when `id+1` does not exist. -/
def get_index_range (index : List Nat) (length id : Nat) : Option (Nat × Nat) :=
  if index.length < id + 2 then do
    let start ← index.get? id
    pure (start, length)
  else do
    let start ← index.get? id
    let e ← index.get? (id + 1)
    pure (start, e)

/-- Rust slice/`get_range` access `v[a..b]` (panics unless `a ≤ b ≤ len`). -/
def listGetRange (l : List Nat) (a b : Nat) : Option (List Nat) :=
  if a ≤ b ∧ b ≤ l.length then some ((l.take b).drop a) else none

/-- `Capture::get_packet`. -/
def Capture.get_packet (s : Capture) (index : Nat) :
    Option (List Nat × Capture) := do
  let r ← get_index_range s.packet_index s.packet_data.length index
  let bytes ← listGetRange s.packet_data r.1 r.2
  pure (bytes, s)

/-- `Capture::get_packet_pid`. -/
def Capture.get_packet_pid (s : Capture) (index : Nat) :
    Option (PID × Capture) := do
  let offset ← s.packet_index.get? index
  let b ← s.packet_data.get? offset
  pure (PID.ofByte b, s)

/-- `Capture::get_transaction_stats`: the packet range of a transaction and
its data payload size (`len - 3` of the data packet, when the first PID is
IN/OUT, the transaction has ≥ 2 packets and packet 1 is DATA0/DATA1). -/
def Capture.get_transaction_stats (s : Capture) (index : Nat) :
    Option (((Nat × Nat) × Option Nat) × Capture) := do
  let range ← get_index_range s.transaction_index s.packet_index.length index
  let packet_count := range.2 - range.1
  let (pid, s) ← s.get_packet_pid range.1
  match pid with
  | .IN | .OUT =>
      if 2 ≤ packet_count then do
        let (data_packet, s) ← s.get_packet (range.1 + 1)
        let b0 ← data_packet.head?
        match PID.ofByte b0 with
        | .DATA0 | .DATA1 =>
            if data_packet.length < 3 then none
            else pure ((range, some (data_packet.length - 3)), s)
        | _ => pure ((range, none), s)
      else pure ((range, none), s)
  | _ => pure ((range, none), s)

/-- `Capture::get_endpoint_state`: the endpoint-state snapshot recorded for
transfer entry `index`. -/
def Capture.get_endpoint_state (s : Capture) (index : Nat) :
    Option (List Nat × Capture) := do
  let r ← get_index_range s.endpoint_state_index s.endpoint_states.length index
  let v ← listGetRange s.endpoint_states r.1 r.2
  pure (v, s)

/-- `Capture::transfer_extended`: whether the transfer is still ongoing at
the next transfer entry. -/
def Capture.transfer_extended (s : Capture) (endpoint_id index : Nat) :
    Option (Bool × Capture) := do
  let count := s.transfer_index.length
  if count ≤ index + 1 then pure (false, s)
  else do
    let (state, s) ← s.get_endpoint_state (index + 1)
    if state.length ≤ endpoint_id then pure (false, s)
    else
      pure ((EndpointState.ofByte (state.getD endpoint_id 0) == .Ongoing), s)

/-- `Capture::item_range`. -/
def Capture.item_range (s : Capture) (item : Item) :
    Option ((Nat × Nat) × Capture) := do
  match item with
  | .Transfer id => do
      let entry ← s.transfer_index.get? id
      let ep_data ← s.endpoint_data.get? entry.endpoint_id
      let r ← get_index_range ep_data.transfer_index
                ep_data.transaction_ids.length entry.transfer_id
      pure (r, s)
  | .Transaction _ tid => do
      let r ← get_index_range s.transaction_index s.packet_index.length tid
      pure (r, s)
  | .Packet _ _ pid => do
      let r ← get_index_range s.packet_index s.packet_data.length pid
      pure (r, s)

/-- `Capture::item_count`. -/
def Capture.item_count (s : Capture) (parent : Option Item) :
    Option (Nat × Capture) := do
  match parent with
  | none => pure (s.item_index.length, s)
  | some item =>
    match item with
    | .Transfer id => do
        let entry ← s.transfer_index.get? id
        if entry.is_start then do
          let (r, s) ← s.item_range item
          pure (r.2 - r.1, s)
        else pure (0, s)
    | .Transaction _ _ => do
        let (r, s) ← s.item_range item
        pure (r.2 - r.1, s)
    | .Packet _ _ _ => pure (0, s)

/-- `Capture::get_item`; `get_item` on a `Packet` parent is a contract
violation and panics (`none`). -/
def Capture.get_item (s : Capture) (parent : Option Item) (index : Nat) :
    Option (Item × Capture) := do
  match parent with
  | none => do
      let t ← s.item_index.get? index
      pure (Item.Transfer t, s)
  | some (.Transfer tii) => do
      let entry ← s.transfer_index.get? tii
      let ep_data ← s.endpoint_data.get? entry.endpoint_id
      let offset ← ep_data.transfer_index.get? entry.transfer_id
      let t ← ep_data.transaction_ids.get? (offset + index)
      pure (Item.Transaction tii t, s)
  | some (.Transaction tii tid) => do
      let p ← s.transaction_index.get? tid
      pure (Item.Packet tii tid (p + index), s)
  | some (.Packet _ _ _) => none

/-- The per-transaction contribution to a control transfer's data size
(the closure inside `get_summary`). -/
def dataSizeContribution (dir : Direction) (pid : PID) (payload : Option Nat) :
    Nat :=
  match dir, pid, payload with
  | .In, .IN, some size => size
  | .Out, .OUT, some size => size
  | _, _, _ => 0

/-- `Capture::get_summary`. -/
def Capture.get_summary (s : Capture) (item : Item) :
    Option (String × Capture) := do
  match item with
  | .Packet _ _ packet_id => do
      let (packet, s) ← s.get_packet packet_id
      let b0 ← packet.head?
      let pid := PID.ofByte b0
      let fields ← PacketFields.from_packet packet
      let suffix ← (match fields with
        | .SOF v => some (" with frame number " ++ natDec (sof_frame_number v) ++
                          ", CRC " ++ hex2U (sof_crc v))
        | .Token v => some (" on " ++ natDec (token_device_address v) ++ "." ++
                            natDec (token_endpoint_number v) ++ ", CRC " ++
                            hex2U (token_crc v))
        | .Data crc =>
            if packet.length < 3 then none
            else some (" with " ++ natDec (packet.length - 3) ++
                       " data bytes and CRC " ++ hex4U crc)
        | .None => some "")
      pure (pid.toDisplay ++ " packet" ++ suffix ++ ": " ++ bytesDebug packet, s)
  | .Transaction _ transaction_id => do
      let (stats, s) ← s.get_transaction_stats transaction_id
      let range := stats.1
      let payload := stats.2
      let (pid, s) ← s.get_packet_pid range.1
      let count := range.2 - range.1
      match pid, payload with
      | .SOF, _ => pure (natDec count ++ " SOF packets", s)
      | _, none =>
          pure (pid.toDisplay ++ " transaction, " ++ natDec count ++ " packets", s)
      | _, some size =>
          pure (pid.toDisplay ++ " transaction, " ++ natDec count ++
                " packets with " ++ natDec size ++ " data bytes", s)
  | .Transfer tii => do
      let entry ← s.transfer_index.get? tii
      let endpoint ← s.endpoints.get? entry.endpoint_id
      if entry.is_start then do
        let (range, s) ← s.item_range item
        let count := range.2 - range.1
        let ep_data ← s.endpoint_data.get? entry.endpoint_id
        match ep_data.ep_type with
        | .Invalid => pure (natDec count ++ " invalid groups", s)
        | .Framing => pure (natDec count ++ " SOF groups", s)
        | .Normal =>
            pure ("Bulk transfer with " ++ natDec count ++
                  " transactions on endpoint " ++
                  natDec endpoint.device_address ++ "." ++
                  natDec endpoint.endpoint_number, s)
        | .Control => do
            let transaction_ids ←
              listGetRange ep_data.transaction_ids range.1 range.2
            let setup_transaction_id ← transaction_ids.head?
            let setup_packet_id ← s.transaction_index.get? setup_transaction_id
            let (data_packet, s) ← s.get_packet (setup_packet_id + 1)
            let fields ← SetupFields.from_data_packet data_packet
            let request_type := rtf_request_type fields.type_fields
            let direction := rtf_direction fields.type_fields
            let action := match direction with
              | .In => "reading"
              | .Out => "writing"
            let acc ← transaction_ids.foldlM
              (fun (p : Nat × Capture) tid => do
                let (a, s) := p
                let (stats2, s) ← s.get_transaction_stats tid
                let (pid2, s) ← s.get_packet_pid stats2.1.1
                pure (a + dataSizeContribution direction pid2 stats2.2, s))
              (0, s)
            let data_size := acc.1
            let s := acc.2
            let first_part := match request_type with
              | .Standard =>
                  (StandardRequest.fromPrimitive fields.request).description fields
              | _ =>
                  request_type.toDisplay ++ " request #" ++ natDec fields.request ++
                  ", index " ++ natDec fields.index ++ ", value " ++
                  natDec fields.value
            let second := match rtf_recipient fields.type_fields with
              | .Device => "device " ++ natDec endpoint.device_address
              | .Interface => "interface " ++ natDec endpoint.device_address ++
                              "." ++ natDec fields.index
              | .Endpoint => "endpoint " ++ natDec endpoint.device_address ++
                             "." ++ natDec (fields.index % 128) ++ " " ++
                             (if fields.index / 128 % 2 = 0 then "OUT" else "IN")
              | _ => "device " ++ natDec endpoint.device_address ++
                     ", index " ++ natDec fields.index
            let third :=
              if fields.length = 0 ∧ data_size = 0 then ""
              else if data_size = fields.length then
                ", " ++ action ++ " " ++ natDec fields.length ++ " bytes"
              else
                ", " ++ action ++ " " ++ natDec data_size ++ " of " ++
                natDec fields.length ++ " requested bytes"
            pure (first_part ++ " for " ++ second ++ third, s)
      else do
        let ep_data ← s.endpoint_data.get? entry.endpoint_id
        let kind := match ep_data.ep_type with
          | .Invalid => "invalid groups"
          | .Framing => "SOF groups"
          | .Control => "control transfer on device " ++
                        natDec endpoint.device_address
          | .Normal => "bulk transfer on endpoint " ++
                       natDec endpoint.device_address ++ "." ++
                       natDec endpoint.endpoint_number
        pure ("End of " ++ kind, s)

/-- One step of the connector-building loop in `get_connectors`: updates
`thru` and picks the glyph for endpoint column `i`. -/
def connectorStep (item : Item) (endpoint_id : Nat) (last : Bool)
    (i : Nat) (stByte : Nat) (thru : Bool) : Bool × Char :=
  let state := EndpointState.ofByte stByte
  let active := state != EndpointState.Idle
  let on_endpoint := i == endpoint_id
  let thru' := thru ||
    (match item, state, on_endpoint with
     | .Transfer _, .Starting, _ | .Transfer _, .Ending, _ => true
     | .Transaction _ _, _, true | .Packet _ _ _, _, true => true
     | _, _, _ => false)
  let c :=
    match item with
    | .Transfer _ =>
        match state, thru' with
        | .Idle, _ => ' '
        | .Starting, _ => '○'
        | .Ongoing, false => '│'
        | .Ongoing, true => '┼'
        | .Ending, _ => '└'
    | .Transaction _ _ =>
        match on_endpoint, active, thru', last with
        | false, false, false, _ => ' '
        | false, false, true, _ => '─'
        | false, true, false, _ => '│'
        | false, true, true, _ => '┼'
        | true, _, _, false => '├'
        | true, _, _, true => '└'
    | .Packet _ _ _ =>
        match on_endpoint, active, last with
        | false, false, _ => ' '
        | false, true, _ => '│'
        | true, _, false => '│'
        | true, _, true => ' '
  (thru', c)

/-- `Capture::get_connectors`. -/
def Capture.get_connectors (s : Capture) (item : Item) :
    Option (String × Capture) := do
  let endpoint_count := s.endpoints.length
  let tii := match item with
    | .Transfer i => i
    | .Transaction i _ => i
    | .Packet i _ _ => i
  let entry ← s.transfer_index.get? tii
  let endpoint_id := entry.endpoint_id
  let (endpoint_state, s) ← s.get_endpoint_state tii
  let state_length := endpoint_state.length
  let (extended, s) ← s.transfer_extended endpoint_id tii
  let ep_data ← s.endpoint_data.get? endpoint_id
  let last_transaction ← (match item with
    | .Transaction _ transaction_id | .Packet _ transaction_id _ => do
        let r ← get_index_range ep_data.transfer_index
                  ep_data.transaction_ids.length entry.transfer_id
        if r.2 = 0 then none
        else do
          let last_tid ← ep_data.transaction_ids.get? (r.2 - 1)
          pure (transaction_id == last_tid)
    | _ => pure false)
  let last_packet ← (match item with
    | .Packet _ transaction_id packet_id => do
        let r ← get_index_range s.transaction_index s.packet_index.length
                  transaction_id
        if r.2 = 0 then none else pure (packet_id == r.2 - 1)
    | _ => pure false)
  let last := last_transaction && !extended
  let folded := (List.range state_length).foldl
    (fun (acc : Bool × List Char) i =>
      let r := connectorStep item endpoint_id last i
                 (endpoint_state.getD i 0) acc.1
      (r.1, acc.2 ++ [r.2]))
    (false, [])
  let body := folded.2 ++ (List.range (endpoint_count - state_length)).map
    (fun _ => match item with
      | .Transfer _ => '─'
      | .Transaction _ _ => '─'
      | .Packet _ _ _ => ' ')
  let suffix : String := match item, last_packet with
    | .Transfer _, _ => if entry.is_start then "─" else "──□ "
    | .Transaction _ _, _ => "───"
    | .Packet _ _ _, false => "    ├──"
    | .Packet _ _ _, true => "    └──"
  pure (String.mk body ++ suffix, s)

/-- SOF packet from the repository tests: frame 1758, CRC 0x03. -/
def sofPacket : List Nat := [0xA5, 0xDE, 0x1E]

/-- SETUP token to device 2, endpoint 0 (from the repository tests). -/
def setupPacket : List Nat := [0x2D, 0x02, 0xA8]

/-- DATA0 packet carrying the get-device-descriptor setup payload:
type 0x80, request 6, value 0x0100, index 0, length 18. -/
def setupDataPacket : List Nat :=
  [0xC3, 0x80, 0x06, 0x00, 0x01, 0x00, 0x00, 0x12, 0x00, 0xAA, 0xD5]

/-- ACK handshake packet. -/
def ackPacket : List Nat := [0xD2]

/-- NAK handshake packet. -/
def nakPacket : List Nat := [0x5A]

/-- IN token to device 2, endpoint 0. -/
def inPacket : List Nat := [0x69, 0x02, 0x00]

/-- OUT token to device 2, endpoint 0. -/
def outPacket : List Nat := [0xE1, 0x02, 0x00]

/-- DATA1 packet with 18 data bytes (and 2 CRC bytes). -/
def data1Packet18 : List Nat :=
  [0x4B] ++ List.replicate 18 0x41 ++ [0x00, 0x00]

/-- DATA1 packet with 0 data bytes. -/
def data1Packet0 : List Nat := [0x4B, 0x00, 0x00]

/-- The nine packets of the control get-descriptor scenario (spec §8.5). -/
def controlScenario : List (List Nat) :=
  [setupPacket, setupDataPacket, ackPacket,
   inPacket, data1Packet18, ackPacket,
   outPacket, data1Packet0, ackPacket]

/-- The eleven packets of the retry scenario (spec §8.6): the IN+NAK
transaction in the middle is a failed attempt. -/
def retryScenario : List (List Nat) :=
  [setupPacket, setupDataPacket, ackPacket,
   inPacket, nakPacket,
   inPacket, data1Packet18, ackPacket,
   outPacket, data1Packet0, ackPacket]

/-- Ten consecutive SOF packets (spec §8.7). -/
def sofScenario : List (List Nat) := List.replicate 10 sofPacket

/-- The capture state after the control get-descriptor scenario. -/
def controlCapture : Capture := (runPackets controlScenario).getD Capture.new

/-- The capture state after the retry scenario. -/
def retryCapture : Capture := (runPackets retryScenario).getD Capture.new

/-- The capture state after ten consecutive SOF packets. -/
def sofCapture : Capture := (runPackets sofScenario).getD Capture.new

/-- The transaction status table exactly as the spec's claim states it
(spec-side definition for the refinement comparison of claim C1). -/
def specTransactionStatus (first last next : PID) : DecodeStatus :=
  if next = .SETUP ∨ next = .IN ∨ next = .OUT then .NEW
  else if next = .SOF ∧ last = .Malformed then .NEW
  else if next = .SOF ∧ last = .SOF then .CONTINUE
  else if next = .DATA0 ∧ last = .SETUP then .CONTINUE
  else if next = .ACK ∧ first = .SETUP ∧ last = .DATA0 then .DONE
  else if (next = .NAK ∨ next = .STALL) ∧ last = .IN then .DONE
  else if (next = .DATA0 ∨ next = .DATA1) ∧ (last = .IN ∨ last = .OUT) then
    .CONTINUE
  else if next = .ACK ∧ (first = .IN ∨ first = .OUT) ∧
          (last = .DATA0 ∨ last = .DATA1) then .DONE
  else if (next = .NAK ∨ next = .STALL) ∧ first = .OUT ∧
          (last = .DATA0 ∨ last = .DATA1) then .DONE
  else .INVALID

/-- Default entry used for positional access into the transfer index. -/
def dEntry : TransferIndexEntry := { transfer_id := 0, endpoint_id := 0, is_start := false }

/-- Entry of the global transfer index at position `k`. -/
def entD (l : List TransferIndexEntry) (k : Nat) : TransferIndexEntry :=
  l.getD k dEntry

/-- Claim C7 exactly as stated: every start entry has a later end entry with
the same `endpoint_id` and the same `transfer_id`, with no entry for that
same pair strictly between them. -/
def startsMatched (l : List TransferIndexEntry) : Prop :=
  ∀ k, k < l.length → (entD l k).is_start = true →
    ∃ k', k' < l.length ∧ k < k' ∧
      (entD l k').is_start = false ∧
      (entD l k').endpoint_id = (entD l k).endpoint_id ∧
      (entD l k').transfer_id = (entD l k).transfer_id ∧
      ∀ i, i < k' → k < i →
        ¬((entD l i).endpoint_id = (entD l k).endpoint_id ∧
          (entD l i).transfer_id = (entD l k).transfer_id)

/-- Claim C6 as stated: some start entry on endpoint-id 1 whose transfer
holds ten transactions. -/
def sofClaim (s : Capture) : Prop :=
  ∃ k, k < s.transfer_index.length ∧
    (entD s.transfer_index k).endpoint_id = 1 ∧
    (entD s.transfer_index k).is_start = true ∧
    (s.item_count (some (Item.Transfer k))).map Prod.fst = some 10

/-- Bounded universal quantifiers over `Nat` are decidable. -/
instance decidableBallLtAnd (n : Nat) (P : Nat → Prop) [DecidablePred P] :
    Decidable (∀ k, k < n → P k) :=
  decidable_of_iff (∀ k ∈ Finset.range n, P k) (by simp)

/-- Bounded existential quantifiers over `Nat` are decidable. -/
instance decidableBexLtAnd (n : Nat) (P : Nat → Prop) [DecidablePred P] :
    Decidable (∃ k, k < n ∧ P k) :=
  decidable_of_iff (∃ k ∈ Finset.range n, P k) (by simp)

/-- Per-endpoint decoder data at index `e` (default for out-of-range). -/
def epD (s : Capture) (e : Nat) : EndpointData := s.endpoint_data.getD e default

/-- Offsets of the snapshot blocks: partial sums of the block lengths. -/
def offsets (L : List Nat) : List Nat :=
  (List.range L.length).map (fun k => (L.take k).sum)

/-- Length of the endpoint-state snapshot recorded for transfer entry `k`:
the byte range from `endpoint_state_index[k]` to the next offset (or the
end of `endpoint_states`). -/
def snapLen (s : Capture) (k : Nat) : Nat :=
  (if k + 1 < s.endpoint_state_index.length
   then s.endpoint_state_index.getD (k + 1) 0
   else s.endpoint_states.length) - s.endpoint_state_index.getD k 0

/-- Structural well-formedness of a capture: the three per-endpoint vectors
have equal length, the two synthetic endpoints exist, the current
transaction's endpoint id and every cached lookup-table id are in range. -/
def BasicWF (s : Capture) : Prop :=
  s.endpoint_data.length = s.endpoints.length ∧
  s.last_endpoint_state.length = s.endpoints.length ∧
  2 ≤ s.endpoints.length ∧
  s.transaction_state.endpoint_id < s.endpoint_data.length ∧
  (∀ a n, 0 ≤ s.endpoint_index a n →
      (s.endpoint_index a n).toNat < s.endpoint_data.length)

/-- The endpoint-state snapshot area decomposes into one block per transfer
entry: `endpoint_state_index` is the partial-sum sequence of a list of
block lengths, each bounded by the endpoint count and non-decreasing. -/
def SnapShape (s : Capture) : Prop :=
  ∃ L : List Nat,
    s.endpoint_state_index = offsets L ∧
    s.endpoint_states.length = L.sum ∧
    L.length = s.transfer_index.length ∧
    L.Chain' (· ≤ ·) ∧
    ∀ l ∈ L, l ≤ s.endpoints.length

/-- Per-endpoint invariant: each endpoint's `transfer_index` is strictly
increasing with all values below `transaction_ids.len`, and a zero
transaction count forces `last = Malformed`. -/
def PerEp (s : Capture) : Prop :=
  ∀ e, e < s.endpoint_data.length →
    (epD s e).transfer_index.Chain' (· < ·) ∧
    (∀ v ∈ (epD s e).transfer_index, v < (epD s e).transaction_ids.length) ∧
    ((epD s e).transaction_count = 0 → (epD s e).last = PID.Malformed)

/-- Every stored transfer entry's `endpoint_id` field is a valid endpoint
index (the 11-bit truncation can only shrink the value). -/
def EntriesWF (s : Capture) : Prop :=
  ∀ k, k < s.transfer_index.length →
    (entD s.transfer_index k).endpoint_id < s.endpoint_data.length

/-- The unconditional reachable-state invariant. -/
def InvA (s : Capture) : Prop := BasicWF s ∧ SnapShape s ∧ PerEp s ∧ EntriesWF s

/-- No entry for endpoint `e` occurs after position `k`. -/
def lastEntryIsolated (l : List TransferIndexEntry) (e k : Nat) : Prop :=
  ∀ i, i < l.length → k < i → (entD l i).endpoint_id ≠ e

/-- A transfer is open on endpoint `e` whose per-endpoint transfer table has
length `m`: the last entry for `e` is the start entry with id `m - 1`. -/
def openAt (l : List TransferIndexEntry) (e m : Nat) : Prop :=
  1 ≤ m ∧ ∃ k, k < l.length ∧
    entD l k = { transfer_id := m - 1, endpoint_id := e, is_start := true } ∧
    lastEntryIsolated l e k

/-- No transfer is open on endpoint `e`: either no entry for `e` exists, or
the last one is an end entry. -/
def closedAt (l : List TransferIndexEntry) (e : Nat) : Prop :=
  (∀ k, k < l.length → (entD l k).endpoint_id ≠ e) ∨
  (∃ k, k < l.length ∧ (entD l k).endpoint_id = e ∧
        (entD l k).is_start = false ∧ lastEntryIsolated l e k)

/-- Every end entry is immediately preceded (among the entries of its
endpoint) by the start entry with `transfer_id` one less. -/
def EndsMatched (l : List TransferIndexEntry) : Prop :=
  ∀ k, k < l.length → (entD l k).is_start = false →
    1 ≤ (entD l k).transfer_id ∧
    ∃ k', k' < k ∧
      entD l k' = { transfer_id := (entD l k).transfer_id - 1,
                    endpoint_id := (entD l k).endpoint_id, is_start := true } ∧
      ∀ i, i < k → k' < i → (entD l i).endpoint_id ≠ (entD l k).endpoint_id

/-- Every start entry is immediately followed (among the entries of its
endpoint) by the end entry with `transfer_id` one more, unless it is the
last entry of its endpoint (a still-open transfer). -/
def StartsChained (l : List TransferIndexEntry) : Prop :=
  ∀ k, k < l.length → (entD l k).is_start = true →
    (∃ k', k' < l.length ∧ k < k' ∧
       entD l k' = { transfer_id := (entD l k).transfer_id + 1,
                     endpoint_id := (entD l k).endpoint_id, is_start := false } ∧
       ∀ i, i < k' → k < i → (entD l i).endpoint_id ≠ (entD l k).endpoint_id) ∨
    lastEntryIsolated l (entD l k).endpoint_id k

/-- Start/end entries of each endpoint alternate correctly. -/
def GoodEntries (l : List TransferIndexEntry) : Prop :=
  EndsMatched l ∧ StartsChained l

/-- The capture is within the packed-field capacity stated in the spec:
at most 2^11 endpoints and fewer than 2^52 transfers per endpoint, so the
bit-field truncations are the identity. -/
def SmallCapture (s : Capture) : Prop :=
  s.endpoints.length ≤ 2 ^ 11 ∧
  ∀ e, e < s.endpoint_data.length → (epD s e).transfer_index.length < 2 ^ 52

/-- The entry-alternation invariant, coupled to the per-endpoint open/closed
state. -/
def InvB (s : Capture) : Prop :=
  GoodEntries s.transfer_index ∧
  ∀ e, e < s.endpoint_data.length →
    (0 < (epD s e).transaction_count →
       openAt s.transfer_index e (epD s e).transfer_index.length) ∧
    ((epD s e).transaction_count = 0 → closedAt s.transfer_index e)

/-- The full reachable-state invariant. -/
def CaptureInv (s : Capture) : Prop := InvA s ∧ (SmallCapture s → InvB s)

/-- The capture state reached after the first five packets of the retry
scenario, at the instant the transfer machine sees the IN+NAK transaction
(count 2, last NAK): the input of claim C2's retry rule. -/
def retryMidCapture : Capture :=
  Capture.transaction_append
    ((runPackets (retryScenario.take 4)).getD Capture.new) PID.NAK

/-- The endpoint data of endpoint 2 at `retryMidCapture`. -/
def retryMidEp : EndpointData := retryMidCapture.endpoint_data.getD 2 default

instance (l : List TransferIndexEntry) (e k : Nat) :
    Decidable (lastEntryIsolated l e k) := by
  unfold lastEntryIsolated; infer_instance

instance (l : List TransferIndexEntry) (e m : Nat) : Decidable (openAt l e m) := by
  unfold openAt; infer_instance

instance (l : List TransferIndexEntry) (e : Nat) : Decidable (closedAt l e) := by
  unfold closedAt; infer_instance

instance (l : List TransferIndexEntry) : Decidable (EndsMatched l) := by
  unfold EndsMatched; infer_instance

instance (l : List TransferIndexEntry) : Decidable (StartsChained l) := by
  unfold StartsChained; infer_instance

instance (l : List TransferIndexEntry) : Decidable (GoodEntries l) := by
  unfold GoodEntries; infer_instance

instance (l : List TransferIndexEntry) : Decidable (startsMatched l) := by
  unfold startsMatched; infer_instance

instance (s : Capture) : Decidable (sofClaim s) := by
  unfold sofClaim; infer_instance

instance (s : Capture) : Decidable (SmallCapture s) := by
  unfold SmallCapture; infer_instance

instance (s : Capture) : Decidable (EntriesWF s) := by
  unfold EntriesWF; infer_instance

instance (s : Capture) : Decidable (PerEp s) := by
  unfold PerEp; infer_instance

theorem mapWithIndex_length (f : Nat → Nat → Nat) :
    ∀ (i : Nat) (l : List Nat), (mapWithIndex f i l).length = l.length := by
  intro i l
  induction l generalizing i with
  | nil => rfl
  | cons a as ih => simp [mapWithIndex, ih]

theorem length_nextEndpointStates (s : Capture) (e : Nat) (st : Bool) :
    (nextEndpointStates s e st).length = s.last_endpoint_state.length := by
  unfold nextEndpointStates
  exact mapWithIndex_length _ _ _

theorem getD_concat_self (l : List TransferIndexEntry) (a d : TransferIndexEntry) :
    (l ++ [a]).getD l.length d = a := by
  simp [List.getD, List.get?_concat_length]

theorem getD_concat_self_nat (l : List Nat) (a d : Nat) :
    (l ++ [a]).getD l.length d = a := by
  simp [List.getD, List.get?_concat_length]

theorem entD_append_left (l l' : List TransferIndexEntry) (k : Nat)
    (h : k < l.length) : entD (l ++ l') k = entD l k := by
  unfold entD
  exact List.getD_append l l' dEntry k h

theorem entD_concat_self (l : List TransferIndexEntry) (a : TransferIndexEntry) :
    entD (l ++ [a]) l.length = a := getD_concat_self l a dEntry

/-- C1: for every transaction state `(first, last)` and incoming PID `next`,
`TransactionState::status` computes exactly the spec's transaction table:
SETUP/IN/OUT give NEW; SOF gives NEW after Malformed and CONTINUE after SOF;
DATA0 after SETUP gives CONTINUE; ACK after (SETUP, DATA0) gives DONE;
NAK/STALL after IN gives DONE; DATA0/DATA1 after IN/OUT gives CONTINUE;
ACK after (IN/OUT, DATA0/DATA1) gives DONE; NAK/STALL after
(OUT, DATA0/DATA1) gives DONE; everything else is INVALID. -/
theorem C1_transaction_status_matches_spec :
    ∀ (st : TransactionState) (next : PID),
      st.status next = specTransactionStatus st.first st.last next := by
  have h : ∀ f l n, transactionStatus f l n = specTransactionStatus f l n := by
    decide
  intro st next
  exact h st.first st.last next

/-- C4: ingesting the nine packets of the control get-descriptor scenario
into a fresh capture yields the summary
"Getting device descriptor #0 for device 2, reading 18 bytes" for the
transfer start item, and that transfer holds exactly three transactions on
the endpoint registered for (2,0). -/
theorem C4_control_transfer_summary :
    runPackets controlScenario = some controlCapture ∧
    (controlCapture.get_summary (Item.Transfer 0)).map Prod.fst =
      some "Getting device descriptor #0 for device 2, reading 18 bytes" ∧
    (controlCapture.item_count (some (Item.Transfer 0))).map Prod.fst = some 3 ∧
    controlCapture.item_index = [0] ∧
    controlCapture.endpoint_index 2 0 = 2 ∧
    controlCapture.endpoints.getD 2 { device_address := 0, endpoint_number := 0 } =
      { device_address := 2, endpoint_number := 0 } ∧
    entD controlCapture.transfer_index 0 =
      { transfer_id := 0, endpoint_id := 2, is_start := true } ∧
    (controlCapture.endpoint_data.getD 2 default).transaction_ids = [0, 1, 2] := by
  refine ⟨rfl, by decide, by decide, by decide, rfl, by decide, by decide, by decide⟩

/-- C5 counterexample: on the control get-descriptor scenario the top-level
item count is 1, not 2 — the transfer end does not get its own top-level
item because `last_item_endpoint` still equals the transfer's endpoint. -/
theorem C5_cex_item_count_not_two :
    runPackets controlScenario = some controlCapture ∧
    (controlCapture.item_count none).map Prod.fst = some 1 ∧
    (controlCapture.item_count none).map Prod.fst ≠ some 2 := by
  refine ⟨rfl, by decide, by decide⟩

/-- C5 (amended): after the nine packets of the control get-descriptor
scenario, `item_count(None)` returns 1: the uninterrupted transfer has a
single top-level item covering both its start and its end, because
`transfer_end` pushes a second `item_index` entry only when
`last_item_endpoint` differs from the transfer's endpoint. -/
theorem C5_single_top_level_item :
    runPackets controlScenario = some controlCapture ∧
    (controlCapture.item_count none).map Prod.fst = some 1 ∧
    controlCapture.item_index = [0] ∧
    controlCapture.last_item_endpoint = 2 ∧
    controlCapture.transfer_index.length = 2 := by
  refine ⟨rfl, by decide, by decide, by decide, by decide⟩

/-- C6 counterexample: ten consecutive SOF packets produce no transfer at
all — the ten packets form one still-open transaction, so no entry on
endpoint 1 exists, let alone one containing ten transactions. -/
theorem C6_cex_no_framing_transfer :
    runPackets sofScenario = some sofCapture ∧ ¬ sofClaim sofCapture := by
  exact ⟨rfl, by decide⟩

/-- C6 (amended): ten consecutive SOF packets into a fresh capture are
grouped into a single still-open transaction of ten packets on endpoint-id 1
(the Framing endpoint); no transaction or transfer is emitted and there are
no transfer entries or top-level items until that transaction is flushed by
a later packet. -/
theorem C6_ten_sof_single_open_transaction :
    runPackets sofScenario = some sofCapture ∧
    sofCapture.transfer_index = [] ∧
    sofCapture.item_index = [] ∧
    sofCapture.transaction_index = [] ∧
    sofCapture.transaction_state.count = 10 ∧
    sofCapture.transaction_state.endpoint_id = 1 ∧
    sofCapture.transaction_state.first = PID.SOF ∧
    (sofCapture.endpoint_data.getD 1 default).ep_type = EndpointType.Framing := by
  refine ⟨rfl, by decide, by decide, by decide, by decide, by decide, by decide,
          by decide⟩

/-- C3 counterexample: a single-byte SOF packet makes `handle_raw_packet`
read `packet[1]` out of bounds (a panic), so not every byte sequence of
length ≥ 1 is absorbed. -/
theorem C3_cex_short_packet_panics :
    Capture.handle_raw_packet Capture.new [0xA5] = none ∧
    (1 : Nat) ≤ [0xA5].length := by
  exact ⟨rfl, by decide⟩

/-- C7 counterexample: in the reachable state after the control
get-descriptor scenario, the start entry at position 0 has transfer_id 0
while the only later entry (its end, at position 1) has transfer_id 1, so
no later end entry carries the same (endpoint_id, transfer_id) pair. -/
theorem C7_cex_start_without_matching_end :
    Reachable controlCapture ∧
    ¬ startsMatched controlCapture.transfer_index :=
  ⟨⟨controlScenario, rfl⟩, by decide⟩

/-- C2: a transaction counts as completed iff its packet count is 3 and its
last PID is ACK; when the endpoint has an in-progress transfer
(`transaction_count > 0`), the status is not INVALID and the transaction is
not completed, `transfer_update` only appends the global transaction id to
the endpoint's `transaction_ids` and increments `transaction_count` —
`ep.last` stays unchanged and no transfer start/end entry or top-level item
is added.  The retry scenario SETUP+DATA0+ACK, IN+NAK, IN+DATA1+ACK,
OUT+DATA1+ACK yields one transfer of four transactions whose second is such
a failed attempt. -/
theorem C2_retry_failed_attempt :
    (∀ (s : Capture) (d : EndpointData),
      s.endpoint_data.get? s.transaction_state.endpoint_id = some d →
      0 < d.transaction_count →
      d.status s.transaction_state.first ≠ DecodeStatus.INVALID →
      ¬(s.transaction_state.count = 3 ∧ s.transaction_state.last = PID.ACK) →
      s.transfer_update =
        some { s with
               endpoint_data :=
                 s.endpoint_data.set s.transaction_state.endpoint_id
                   { d with
                     transaction_ids :=
                       d.transaction_ids ++ [s.transaction_index.length],
                     transaction_count := d.transaction_count + 1 } }) ∧
    runPackets retryScenario = some retryCapture ∧
    (retryCapture.endpoint_data.getD 2 default).transaction_ids = [0, 1, 2, 3] ∧
    (retryCapture.endpoint_data.getD 2 default).transfer_index = [0] ∧
    retryCapture.transfer_index.length = 2 ∧
    (runPackets (retryScenario.take 5)).map
      (fun s => (s.endpoint_data.getD 2 default).last) = some PID.SETUP ∧
    (runPackets (retryScenario.take 5)).map
      (fun s => (s.endpoint_data.getD 2 default).transaction_ids) = some [0, 1] := by
  refine ⟨?_, rfl, by decide, by decide, by decide, by decide, by decide⟩
  intro s d h h1 h2 h3
  simp only [Capture.transfer_update, Capture.transfer_append, h,
             Option.bind_eq_bind, Option.some_bind]
  rw [if_pos ⟨h1, h2, h3⟩]
  simp only [Option.bind_eq_bind, Option.some_bind, h, Option.pure_def,
             Option.some_inj]
  simp

theorem C2_retry_failed_attempt_witness :
    retryMidCapture.endpoint_data.get?
      retryMidCapture.transaction_state.endpoint_id = some retryMidEp ∧
    0 < retryMidEp.transaction_count ∧
    retryMidEp.status retryMidCapture.transaction_state.first ≠
      DecodeStatus.INVALID ∧
    ¬(retryMidCapture.transaction_state.count = 3 ∧
      retryMidCapture.transaction_state.last = PID.ACK) ∧
    retryMidCapture.transfer_update =
      some { retryMidCapture with
             endpoint_data :=
               retryMidCapture.endpoint_data.set
                 retryMidCapture.transaction_state.endpoint_id
                 { retryMidEp with
                   transaction_ids :=
                     retryMidEp.transaction_ids ++
                       [retryMidCapture.transaction_index.length],
                   transaction_count := retryMidEp.transaction_count + 1 } } :=
  ⟨by decide, by decide, by decide, by decide,
   C2_retry_failed_attempt.1 retryMidCapture retryMidEp (by decide) (by decide)
     (by decide) (by decide)⟩

/-- A query result preserves the capture state: any successful outcome
returns the state it was given. -/
def Pres {α : Type} (s : Capture) (o : Option (α × Capture)) : Prop :=
  ∀ r s', o = some (r, s') → s' = s

theorem Pres.of_pure {α : Type} (s : Capture) (x : α) :
    Pres s (pure (x, s)) := by
  intro r s' h
  cases h
  rfl

theorem Pres.of_none {α : Type} (s : Capture) :
    Pres s (none : Option (α × Capture)) := by
  intro r s' h
  cases h

theorem Pres.bind_plain {α β : Type} {s : Capture} (o : Option β)
    {f : β → Option (α × Capture)} (hf : ∀ b, Pres s (f b)) :
    Pres s (o.bind f) := by
  cases o with
  | none => intro r s' h; simp at h
  | some b => rw [Option.some_bind]; exact hf b

theorem Pres.bind_pair {α β : Type} {s : Capture} {o : Option (β × Capture)}
    (ho : Pres s o) {f : β × Capture → Option (α × Capture)}
    (hf : ∀ b, Pres s (f (b, s))) : Pres s (o.bind f) := by
  cases o with
  | none => intro r s' h; simp at h
  | some x =>
    obtain ⟨b, s2⟩ := x
    have hs : s2 = s := ho b s2 rfl
    subst hs
    rw [Option.some_bind]
    exact hf b

theorem Pres.foldl {β : Type} {s : Capture}
    (f : Nat × Capture → β → Option (Nat × Capture))
    (hf : ∀ a b, Pres s (f (a, s) b)) :
    ∀ (l : List β) (a : Nat), Pres s (l.foldlM f (a, s)) := by
  intro l
  induction l with
  | nil => intro a; exact Pres.of_pure s a
  | cons x xs ih =>
      intro a
      show Pres s (f (a, s) x >>= fun b => xs.foldlM f b)
      simp only [Option.bind_eq_bind]
      exact Pres.bind_pair (hf a x) (fun b => ih b)

theorem Pres.of_ite {α : Type} {s : Capture} {c : Prop} [Decidable c]
    {a b : Option (α × Capture)} (ha : Pres s a) (hb : Pres s b) :
    Pres s (if c then a else b) := by
  split <;> assumption

theorem get_packet_pres (s : Capture) (i : Nat) : Pres s (s.get_packet i) := by
  unfold Capture.get_packet
  simp only [Option.bind_eq_bind]
  apply Pres.bind_plain
  intro a
  apply Pres.bind_plain
  intro b
  exact Pres.of_pure s b

theorem get_packet_pid_pres (s : Capture) (i : Nat) :
    Pres s (s.get_packet_pid i) := by
  unfold Capture.get_packet_pid
  simp only [Option.bind_eq_bind]
  apply Pres.bind_plain
  intro a
  apply Pres.bind_plain
  intro b
  exact Pres.of_pure s _

theorem get_transaction_stats_pres (s : Capture) (i : Nat) :
    Pres s (s.get_transaction_stats i) := by
  unfold Capture.get_transaction_stats
  simp only [Option.bind_eq_bind]
  apply Pres.bind_plain
  intro range
  apply Pres.bind_pair (get_packet_pid_pres s range.1)
  intro pid
  cases pid <;> try exact Pres.of_pure s _
  all_goals {
    apply Pres.of_ite
    · apply Pres.bind_pair (get_packet_pres s (range.1 + 1))
      intro dp
      apply Pres.bind_plain
      intro b0
      cases PID.ofByte b0 <;>
        first
          | (apply Pres.of_ite
             · exact Pres.of_none s
             · exact Pres.of_pure s _)
          | exact Pres.of_pure s _
    · exact Pres.of_pure s _
  }

theorem get_endpoint_state_pres (s : Capture) (i : Nat) :
    Pres s (s.get_endpoint_state i) := by
  unfold Capture.get_endpoint_state
  simp only [Option.bind_eq_bind]
  apply Pres.bind_plain
  intro a
  apply Pres.bind_plain
  intro b
  exact Pres.of_pure s _

theorem transfer_extended_pres (s : Capture) (e i : Nat) :
    Pres s (s.transfer_extended e i) := by
  unfold Capture.transfer_extended
  dsimp only
  apply Pres.of_ite
  · exact Pres.of_pure s _
  · simp only [Option.bind_eq_bind]
    apply Pres.bind_pair (get_endpoint_state_pres s (i + 1))
    intro st
    apply Pres.of_ite
    · exact Pres.of_pure s _
    · exact Pres.of_pure s _

theorem item_range_pres (s : Capture) (it : Item) : Pres s (s.item_range it) := by
  unfold Capture.item_range
  cases it <;> simp only [Option.bind_eq_bind]
  case Transfer id =>
    apply Pres.bind_plain; intro entry
    apply Pres.bind_plain; intro ep
    apply Pres.bind_plain; intro r
    exact Pres.of_pure s _
  case Transaction u v =>
    apply Pres.bind_plain; intro r
    exact Pres.of_pure s _
  case Packet u v w =>
    apply Pres.bind_plain; intro r
    exact Pres.of_pure s _

theorem item_count_pres (s : Capture) (p : Option Item) :
    Pres s (s.item_count p) := by
  unfold Capture.item_count
  cases p with
  | none => exact Pres.of_pure s _
  | some item =>
    cases item with
    | Transfer id =>
        simp only [Option.bind_eq_bind]
        apply Pres.bind_plain
        intro entry
        apply Pres.of_ite
        · apply Pres.bind_pair (item_range_pres s _)
          intro r
          exact Pres.of_pure s _
        · exact Pres.of_pure s _
    | Transaction u v =>
        simp only [Option.bind_eq_bind]
        apply Pres.bind_pair (item_range_pres s _)
        intro r
        exact Pres.of_pure s _
    | Packet u v w => exact Pres.of_pure s _

theorem get_item_pres (s : Capture) (p : Option Item) (i : Nat) :
    Pres s (s.get_item p i) := by
  unfold Capture.get_item
  cases p with
  | none =>
      simp only [Option.bind_eq_bind]
      apply Pres.bind_plain
      intro t
      exact Pres.of_pure s _
  | some item =>
    cases item with
    | Transfer tii =>
        simp only [Option.bind_eq_bind]
        apply Pres.bind_plain; intro entry
        apply Pres.bind_plain; intro ep
        apply Pres.bind_plain; intro offset
        apply Pres.bind_plain; intro t
        exact Pres.of_pure s _
    | Transaction tii tid =>
        simp only [Option.bind_eq_bind]
        apply Pres.bind_plain; intro p
        exact Pres.of_pure s _
    | Packet u v w => exact Pres.of_none s

theorem get_summary_pres (s : Capture) (it : Item) :
    Pres s (s.get_summary it) := by
  unfold Capture.get_summary
  cases it with
  | Packet u v packet_id =>
      simp only [Option.bind_eq_bind]
      apply Pres.bind_pair (get_packet_pres s packet_id)
      intro packet
      apply Pres.bind_plain; intro b0
      apply Pres.bind_plain; intro fields
      apply Pres.bind_plain; intro suffix
      exact Pres.of_pure s _
  | Transaction u transaction_id =>
      simp only [Option.bind_eq_bind]
      apply Pres.bind_pair (get_transaction_stats_pres s transaction_id)
      intro stats
      apply Pres.bind_pair (get_packet_pid_pres s stats.1.1)
      intro pid
      cases pid <;> cases stats.2 <;> exact Pres.of_pure s _
  | Transfer tii =>
      simp only [Option.bind_eq_bind]
      apply Pres.bind_plain; intro entry
      apply Pres.bind_plain; intro endpoint
      apply Pres.of_ite
      · apply Pres.bind_pair (item_range_pres s _)
        intro range
        apply Pres.bind_plain; intro ep_data
        cases ep_data.ep_type
        case Control =>
          apply Pres.bind_plain; intro transaction_ids
          apply Pres.bind_plain; intro setup_transaction_id
          apply Pres.bind_plain; intro setup_packet_id
          apply Pres.bind_pair (get_packet_pres s _)
          intro data_packet
          apply Pres.bind_plain; intro fields
          apply Pres.bind_pair
          · apply Pres.foldl
            intro a tid
            apply Pres.bind_pair (get_transaction_stats_pres s tid)
            intro stats2
            apply Pres.bind_pair (get_packet_pid_pres s stats2.1.1)
            intro pid2
            exact Pres.of_pure s _
          · intro acc
            exact Pres.of_pure s _
        case Invalid => exact Pres.of_pure s _
        case Framing => exact Pres.of_pure s _
        case Normal => exact Pres.of_pure s _
      · apply Pres.bind_plain; intro ep_data
        exact Pres.of_pure s _

theorem get_connectors_pres (s : Capture) (it : Item) :
    Pres s (s.get_connectors it) := by
  unfold Capture.get_connectors
  simp only [Option.bind_eq_bind]
  apply Pres.bind_plain; intro entry
  apply Pres.bind_pair (get_endpoint_state_pres s _)
  intro endpoint_state
  apply Pres.bind_pair (transfer_extended_pres s _ _)
  intro extended
  apply Pres.bind_plain; intro ep_data
  apply Pres.bind_plain; intro last_transaction
  apply Pres.bind_plain; intro last_packet
  exact Pres.of_pure s _

/-- C10: the query operations `get_item`, `item_count`, `get_summary` and
`get_connectors` never modify the capture: whenever one succeeds, the
capture state it hands back is exactly the state it was given, so any later
query or ingest behaves as if the query had not been made. -/
theorem C10_queries_leave_capture_unchanged :
    (∀ (s : Capture) (p : Option Item) (i : Nat) (r : Item) (s' : Capture),
        s.get_item p i = some (r, s') → s' = s) ∧
    (∀ (s : Capture) (p : Option Item) (r : Nat) (s' : Capture),
        s.item_count p = some (r, s') → s' = s) ∧
    (∀ (s : Capture) (it : Item) (r : String) (s' : Capture),
        s.get_summary it = some (r, s') → s' = s) ∧
    (∀ (s : Capture) (it : Item) (r : String) (s' : Capture),
        s.get_connectors it = some (r, s') → s' = s) :=
  ⟨fun s p i r s' h => get_item_pres s p i r s' h,
   fun s p r s' h => item_count_pres s p r s' h,
   fun s it r s' h => get_summary_pres s it r s' h,
   fun s it r s' h => get_connectors_pres s it r s' h⟩

theorem C10_queries_leave_capture_unchanged_witness :
    Capture.item_count controlCapture none = some (1, controlCapture) ∧
    controlCapture = controlCapture :=
  ⟨rfl, C10_queries_leave_capture_unchanged.2.1 controlCapture none 1
          controlCapture rfl⟩
